import Mathlib

/-!
Verification of the MRISynth resampling core against its specification.

The development shallowly embeds the three source files:
they are translated into Lean definitions over exact arithmetic
(real numbers for the affine geometry of transform.py, rationals for the
streamline batch driver of compare_interpolation.py), and the claims of the
specification are settled as theorems about those definitions.
-/

namespace MRISynth

/-! Part 1: embedding of src/transform.py. -/

abbrev Vec3 := Fin 3 → ℝ
abbrev Mat3 := Matrix (Fin 3) (Fin 3) ℝ
abbrev Mat4 := Matrix (Fin 4) (Fin 4) ℝ

/-- Argument new_voxel_size of build_new_affine: a Python float or a 3-tuple. -/
inductive VoxelSizeArg where
  | scalar (s : ℝ)
  | triple (v : Vec3)

/-- Lines 25-26 of transform.py: a scalar voxel size is expanded to a 3-tuple. -/
def VoxelSizeArg.toVec : VoxelSizeArg → Vec3
  | .scalar s => ![s, s, s]
  | .triple v => v

/-- Line 27 of transform.py: the 3x3 linear block old_affine[:3, :3]. -/
def linearPart (A : Mat4) : Mat3 :=
  !![A 0 0, A 0 1, A 0 2;
     A 1 0, A 1 1, A 1 2;
     A 2 0, A 2 1, A 2 2]

/-- Line 28 of transform.py: column norms of a 3x3 matrix,
np.sqrt(np.sum(R_in**2, axis=0)). -/
noncomputable def colNorm (R : Mat3) (j : Fin 3) : ℝ :=
  Real.sqrt (∑ i, R i j ^ 2)

/-- Line 29 of transform.py: per-axis scale factor sf = new_voxel_size / old_scales. -/
noncomputable def scaleFactor (R : Mat3) (v : Vec3) : Vec3 :=
  fun j => v j / colNorm R j

/-- Lines 30-31 of transform.py: the rescaled linear part R_new = R_in @ diag(sf). -/
noncomputable def newLinear (R : Mat3) (v : Vec3) : Mat3 :=
  R * Matrix.diagonal (scaleFactor R v)

/-- Lines 34 and 40 of transform.py: the geometric center voxel index (shape - 1) / 2. -/
noncomputable def centerVox (shape : Fin 3 → ℕ) : Vec3 :=
  fun i => ((shape i : ℝ) - 1) / 2

/-- Homogeneous extension np.hstack([c, 1]) of a 3-vector. -/
def homog (c : Vec3) : Fin 4 → ℝ := ![c 0, c 1, c 2, 1]

/-- Matrix-vector product of a 4x4 matrix with a 4-vector. -/
noncomputable def mulVec4 (A : Mat4) (x : Fin 4 → ℝ) : Fin 4 → ℝ :=
  fun i => ∑ j, A i j * x j

/-- Matrix-vector product of a 3x3 matrix with a 3-vector. -/
noncomputable def mulVec3 (R : Mat3) (x : Vec3) : Vec3 :=
  fun i => ∑ j, R i j * x j

/-- Lines 34-36 of transform.py: the physical location of the old volume's center,
(old_affine @ hstack([(old_shape - 1) / 2, 1]))[:3]. -/
noncomputable def oldCenterMm (old_affine : Mat4) (old_shape : Fin 3 → ℕ) : Vec3 :=
  fun i => mulVec4 old_affine (homog (centerVox old_shape)) i.castSucc

/-- Lines 33-38 of transform.py: the chosen physical center is patch_center_mm when
given, otherwise the old volume's physical center. -/
noncomputable def chosenCenter (old_affine : Mat4) (old_shape : Fin 3 → ℕ)
    (patch_center_mm : Option Vec3) : Vec3 :=
  match patch_center_mm with
  | none => oldCenterMm old_affine old_shape
  | some p => p

/-- Lines 43-45 of transform.py: A_new = eye(4) with A_new[:3, :3] = R and
A_new[:3, 3] = t. -/
noncomputable def mkAffine (R : Mat3) (t : Vec3) : Mat4 :=
  !![R 0 0, R 0 1, R 0 2, t 0;
     R 1 0, R 1 1, R 1 2, t 1;
     R 2 0, R 2 1, R 2 2, t 2;
     0, 0, 0, 1]

/-- Embedding of build_new_affine (transform.py lines 3-47). -/
noncomputable def build_new_affine (old_affine : Mat4) (old_shape : Fin 3 → ℕ)
    (new_voxel_size : VoxelSizeArg) (new_shape : Fin 3 → ℕ)
    (patch_center_mm : Option Vec3) : Mat4 :=
  let R_new := newLinear (linearPart old_affine) new_voxel_size.toVec
  let c := chosenCenter old_affine old_shape patch_center_mm
  let t_new : Vec3 := fun i => c i - mulVec3 R_new (centerVox new_shape) i
  mkAffine R_new t_new

theorem linearPart_mkAffine (R : Mat3) (t : Vec3) : linearPart (mkAffine R t) = R := by
  ext i j
  fin_cases i <;> fin_cases j <;> simp [linearPart, mkAffine]

theorem mkAffine_mulVec (R : Mat3) (t : Vec3) (c : Vec3) :
    mulVec4 (mkAffine R t) (homog c) = homog (fun i => mulVec3 R c i + t i) := by
  funext x
  fin_cases x <;>
    simp [mulVec4, mulVec3, mkAffine, homog, Fin.sum_univ_four, Fin.sum_univ_three]

theorem linearPart_build (old_affine : Mat4) (old_shape : Fin 3 → ℕ)
    (new_voxel_size : VoxelSizeArg) (new_shape : Fin 3 → ℕ)
    (patch_center_mm : Option Vec3) :
    linearPart (build_new_affine old_affine old_shape new_voxel_size new_shape
        patch_center_mm)
      = newLinear (linearPart old_affine) new_voxel_size.toVec := by
  have hdef : build_new_affine old_affine old_shape new_voxel_size new_shape
        patch_center_mm
      = mkAffine (newLinear (linearPart old_affine) new_voxel_size.toVec)
          (fun i => chosenCenter old_affine old_shape patch_center_mm i
            - mulVec3 (newLinear (linearPart old_affine) new_voxel_size.toVec)
                (centerVox new_shape) i) := rfl
  rw [hdef, linearPart_mkAffine]

/-- C1: mapping the new grid's center voxel index (new_shape - 1) / 2, in homogeneous
coordinates, through the affine returned by build_new_affine reproduces the chosen
physical center exactly: the supplied patch_center_mm when given, otherwise the old
affine applied to the old center index (old_shape - 1) / 2. -/
theorem build_new_affine_center_preserved (old_affine : Mat4) (old_shape : Fin 3 → ℕ)
    (new_voxel_size : VoxelSizeArg) (new_shape : Fin 3 → ℕ)
    (patch_center_mm : Option Vec3) :
    mulVec4 (build_new_affine old_affine old_shape new_voxel_size new_shape
        patch_center_mm) (homog (centerVox new_shape))
      = homog (chosenCenter old_affine old_shape patch_center_mm) := by
  have hdef : build_new_affine old_affine old_shape new_voxel_size new_shape
        patch_center_mm
      = mkAffine (newLinear (linearPart old_affine) new_voxel_size.toVec)
          (fun i => chosenCenter old_affine old_shape patch_center_mm i
            - mulVec3 (newLinear (linearPart old_affine) new_voxel_size.toVec)
                (centerVox new_shape) i) := rfl
  rw [hdef, mkAffine_mulVec]
  funext i
  ring

/-- C4: the 3x3 linear part of the affine returned by build_new_affine equals
old_linear times the diagonal matrix of per-axis scale factors, each scale factor
being the desired voxel size divided by the column norm of the old linear part. -/
theorem build_new_affine_linear_part (old_affine : Mat4) (old_shape : Fin 3 → ℕ)
    (new_voxel_size : VoxelSizeArg) (new_shape : Fin 3 → ℕ)
    (patch_center_mm : Option Vec3) :
    linearPart (build_new_affine old_affine old_shape new_voxel_size new_shape
        patch_center_mm)
      = linearPart old_affine *
          Matrix.diagonal
            (fun j => new_voxel_size.toVec j / colNorm (linearPart old_affine) j) := by
  rw [linearPart_build]
  rfl

/-- C5: the column norms of the linear part of the affine returned by
build_new_affine equal the requested voxel size on every axis whose requested size
is nonnegative, provided the old linear part's column norm on that axis is nonzero. -/
theorem build_new_affine_col_norms (old_affine : Mat4) (old_shape : Fin 3 → ℕ)
    (new_voxel_size : VoxelSizeArg) (new_shape : Fin 3 → ℕ)
    (patch_center_mm : Option Vec3) (j : Fin 3)
    (h1 : colNorm (linearPart old_affine) j ≠ 0)
    (h2 : 0 ≤ new_voxel_size.toVec j) :
    colNorm (linearPart (build_new_affine old_affine old_shape new_voxel_size
        new_shape patch_center_mm)) j
      = new_voxel_size.toVec j := by
  rw [linearPart_build]
  set R := linearPart old_affine with hR
  set v := new_voxel_size.toVec with hv
  have hsum : ∑ i, (newLinear R v) i j ^ 2 = (∑ i, R i j ^ 2) * scaleFactor R v j ^ 2 := by
    rw [Finset.sum_mul]
    refine Finset.sum_congr rfl (fun i _ => ?_)
    rw [newLinear, Matrix.mul_diagonal, mul_pow]
  have hnn : (0 : ℝ) ≤ ∑ i, R i j ^ 2 := Finset.sum_nonneg fun i _ => sq_nonneg _
  have hsf : 0 ≤ scaleFactor R v j := div_nonneg h2 (Real.sqrt_nonneg _)
  calc colNorm (newLinear R v) j
      = Real.sqrt ((∑ i, R i j ^ 2) * scaleFactor R v j ^ 2) := by
        rw [colNorm, hsum]
    _ = Real.sqrt (∑ i, R i j ^ 2) * Real.sqrt (scaleFactor R v j ^ 2) :=
        Real.sqrt_mul hnn _
    _ = colNorm R j * |scaleFactor R v j| := by rw [Real.sqrt_sq_eq_abs, colNorm]
    _ = colNorm R j * scaleFactor R v j := by rw [abs_of_nonneg hsf]
    _ = colNorm R j * (v j / colNorm R j) := rfl
    _ = v j / colNorm R j * colNorm R j := mul_comm _ _
    _ = v j := div_mul_cancel₀ _ h1

/-- Concrete affine used to witness the column-norm invariant. -/
noncomputable def wAffine : Mat4 :=
  !![2, 0, 0, 5;
     0, 2, 0, 6;
     0, 0, 2, 7;
     0, 0, 0, 1]

/-- Concrete shape used to witness the column-norm invariant. -/
def wShape : Fin 3 → ℕ := fun _ => 8

theorem build_new_affine_col_norms_witness :
    colNorm (linearPart wAffine) 0 ≠ 0
    ∧ (0 : ℝ) ≤ (VoxelSizeArg.scalar 3).toVec 0
    ∧ colNorm (linearPart (build_new_affine wAffine wShape (VoxelSizeArg.scalar 3)
        wShape none)) 0 = (VoxelSizeArg.scalar 3).toVec 0 := by
  have hc : colNorm (linearPart wAffine) 0 = 2 := by
    rw [colNorm]
    rw [show ∑ i, linearPart wAffine i 0 ^ 2 = (2 : ℝ) ^ 2 by
      simp [linearPart, wAffine, Fin.sum_univ_three, Matrix.vecHead, Matrix.vecTail]]
    exact Real.sqrt_sq (by norm_num)
  have h1 : colNorm (linearPart wAffine) 0 ≠ 0 := by rw [hc]; norm_num
  have h2 : (0 : ℝ) ≤ (VoxelSizeArg.scalar 3).toVec 0 := by
    simp [VoxelSizeArg.toVec]
  exact ⟨h1, h2,
    build_new_affine_col_norms wAffine wShape (VoxelSizeArg.scalar 3) wShape none 0 h1 h2⟩

/-- C6: a scalar voxel size is applied isotropically: build_new_affine with scalar s
returns the same affine as with the triple (s, s, s). -/
theorem build_new_affine_scalar_isotropic (old_affine : Mat4) (old_shape : Fin 3 → ℕ)
    (s : ℝ) (new_shape : Fin 3 → ℕ) (patch_center_mm : Option Vec3) :
    build_new_affine old_affine old_shape (VoxelSizeArg.scalar s) new_shape
        patch_center_mm
      = build_new_affine old_affine old_shape (VoxelSizeArg.triple ![s, s, s])
          new_shape patch_center_mm := rfl

/-! Part 2: embedding of process_streamlines_with_method from
src/compare_interpolation.py (lines 19-63). Streamlines and densified results are
abstract types; the per-streamline densifier is a parameter returning a Python-style
result (ok or a raised-and-caught exception message), exactly as consumed by the
try/except in the loop body. -/

/-- Line 51 of compare_interpolation.py: scaled_step_size = step_size * (voxel_size / 1.0). -/
def scaled_step_size (step_size voxel_size : ℚ) : ℚ := step_size * (voxel_size / 1)

/-- Line 48 of compare_interpolation.py: the DEBUG_TANGENTS environment value written
for streamline index idx. -/
def debugFlagValue (idx : ℕ) : String := if idx < 5 then ("1" : String) else ("0" : String)

/-- Observable outcome of the batch driver: the processed streamlines, the logged
per-item failures, the environment-flag writes, and the step size handed to the
densifier on each call, each keyed by streamline index. -/
structure DriverResult (β : Type) where
  processed : List β
  errors : List (ℕ × String)
  envLog : List (ℕ × String)
  calls : List (ℕ × ℚ)

/-- Loop body of process_streamlines_with_method, lines 43-61: per item, write the
debug flag, compute the scaled step size, call the densifier with it, append the
result on success, log (index, message) and continue on failure. -/
def driverLoop {α β : Type} (densify : α → ℚ → Except String β)
    (step_size voxel_size : ℚ) : ℕ → List α → DriverResult β
  | _, [] => ⟨[], [], [], []⟩
  | idx, stream :: rest =>
    let flag := debugFlagValue idx
    let s := scaled_step_size step_size voxel_size
    let r := driverLoop densify step_size voxel_size (idx + 1) rest
    match densify stream s with
    | .ok d => ⟨d :: r.processed, r.errors, (idx, flag) :: r.envLog, (idx, s) :: r.calls⟩
    | .error e => ⟨r.processed, (idx, e) :: r.errors, (idx, flag) :: r.envLog, (idx, s) :: r.calls⟩

/-- Embedding of process_streamlines_with_method (compare_interpolation.py lines 19-63). -/
def process_streamlines_with_method {α β : Type} (densify : α → ℚ → Except String β)
    (streamlines : List α) (step_size voxel_size : ℚ) : DriverResult β :=
  driverLoop densify step_size voxel_size 0 streamlines

theorem scaled_step_size_eq_mul (a b : ℚ) : scaled_step_size a b = a * b := by
  rw [scaled_step_size, div_one]

theorem driverLoop_processed {α β : Type} (densify : α → ℚ → Except String β)
    (step_size voxel_size : ℚ) (n : ℕ) (l : List α) :
    (driverLoop densify step_size voxel_size n l).processed
      = l.filterMap (fun s => (densify s (scaled_step_size step_size voxel_size)).toOption) := by
  induction l generalizing n with
  | nil => rfl
  | cons a l ih =>
    cases h : densify a (scaled_step_size step_size voxel_size) <;>
      simp [driverLoop, h, ih, Except.toOption]

theorem driverLoop_errors {α β : Type} (densify : α → ℚ → Except String β)
    (step_size voxel_size : ℚ) (n : ℕ) (l : List α) :
    (driverLoop densify step_size voxel_size n l).errors
      = (List.enumFrom n l).filterMap
          (fun p => match densify p.2 (scaled_step_size step_size voxel_size) with
            | .error e => some (p.1, e)
            | .ok _ => none) := by
  induction l generalizing n with
  | nil => rfl
  | cons a l ih =>
    cases h : densify a (scaled_step_size step_size voxel_size) <;>
      simp [driverLoop, h, ih, List.enumFrom]

theorem driverLoop_envLog {α β : Type} (densify : α → ℚ → Except String β)
    (step_size voxel_size : ℚ) (n : ℕ) (l : List α) :
    (driverLoop densify step_size voxel_size n l).envLog
      = (List.enumFrom n l).map (fun p => (p.1, debugFlagValue p.1)) := by
  induction l generalizing n with
  | nil => rfl
  | cons a l ih =>
    cases h : densify a (scaled_step_size step_size voxel_size) <;>
      simp [driverLoop, h, ih, List.enumFrom]

theorem driverLoop_calls {α β : Type} (densify : α → ℚ → Except String β)
    (step_size voxel_size : ℚ) (n : ℕ) (l : List α) :
    (driverLoop densify step_size voxel_size n l).calls
      = (List.enumFrom n l).map (fun p => (p.1, step_size * voxel_size)) := by
  induction l generalizing n with
  | nil => rfl
  | cons a l ih =>
    cases h : densify a (scaled_step_size step_size voxel_size) <;>
      simp only [driverLoop, h] <;>
      simp [ih, List.enumFrom, scaled_step_size_eq_mul]

/-! Spec-model of the per-streamline densifier. -/

/-- Cubic Hermite basis weight h00. -/
def h00 (t : ℝ) : ℝ := 2 * t ^ 3 - 3 * t ^ 2 + 1

/-- Cubic Hermite basis weight h10. -/
def h10 (t : ℝ) : ℝ := t ^ 3 - 2 * t ^ 2 + t

/-- Cubic Hermite basis weight h01. -/
def h01 (t : ℝ) : ℝ := -2 * t ^ 3 + 3 * t ^ 2

/-- Cubic Hermite basis weight h11. -/
def h11 (t : ℝ) : ℝ := t ^ 3 - t ^ 2

/-- Interpolation method selector for the densifier. -/
inductive InterpMethod where
  | linear
  | hermite

/-- Euclidean length of the segment from p to q. -/
noncomputable def segLength (p q : Vec3) : ℝ :=
  Real.sqrt (∑ i, (q i - p i) ^ 2)

/-- Tangent estimated at index i of a point list: one-sided difference at the two
ends, central difference at interior points. -/
noncomputable def tangentAt (pts : List Vec3) (i : ℕ) : Vec3 :=
  let get := fun k => pts.getD k (fun _ => 0)
  if i = 0 then fun c => get 1 c - get 0 c
  else if i = pts.length - 1 then fun c => get i c - get (i - 1) c
  else fun c => (get (i + 1) c - get (i - 1) c) / 2

/-- All estimated tangents of a point list, the diagnostic payload of the debug flag. -/
noncomputable def tangentList (pts : List Vec3) : List Vec3 :=
  (List.range pts.length).map (tangentAt pts)

/-- One interpolated sub-point at parameter t of the segment from p0 to p1 with end
tangents m0 and m1: plain affine blending for the linear method, the standard cubic
Hermite basis blend for the hermite method. -/
noncomputable def interpPoint (method : InterpMethod) (p0 p1 m0 m1 : Vec3) (t : ℝ) : Vec3 :=
  match method with
  | .linear => fun c => (1 - t) * p0 c + t * p1 c
  | .hermite => fun c => h00 t * p0 c + h10 t * m0 c + h01 t * p1 c + h11 t * m1 c

/-- Numerical core of the densifier: per consecutive point pair, ceil(length / step)
sub-steps (at least one), tangents scaled by the segment length, final point kept;
a streamline with fewer than 2 points is returned unchanged. -/
noncomputable def densifyPoints (pts : List Vec3) (step : ℝ) (method : InterpMethod) :
    List Vec3 :=
  if pts.length < 2 then pts
  else
    let get := fun k => pts.getD k (fun _ => 0)
    let body := (List.range (pts.length - 1)).flatMap (fun j =>
      let p0 := get j
      let p1 := get (j + 1)
      let len := segLength p0 p1
      let n := max 1 (Nat.ceil (len / step))
      let m0 := fun c => len * tangentAt pts j c
      let m1 := fun c => len * tangentAt pts (j + 1) c
      (List.range n).map (fun k => interpPoint method p0 p1 m0 m1 ((k : ℝ) / (n : ℝ))))
    body ++ [get (pts.length - 1)]

/-- Output of one densifier invocation: the densified points and the diagnostic
tangent dump requested by the debug flag. -/
structure DensifyResult where
  points : List Vec3
  debugTangents : List Vec3

/-- Modelled from the spec: densify_streamline_subvoxel lives in the densify module,
which is not present under src/ (only its caller compare_interpolation.py is).
Spec section 4.4: per-segment arc-length subdivision with sub-step count
ceil(length / step_size), linear or cubic-Hermite blending with tangents estimated
from neighboring points and scaled by segment length, and a debug flag that only
requests emission of tangent diagnostics, with no effect on numerical output. -/
noncomputable def densify_streamline_subvoxel (pts : List Vec3) (step : ℝ)
    (method : InterpMethod) (debugFlag : Bool) : DensifyResult :=
  { points := densifyPoints pts step method
    debugTangents := if debugFlag then tangentList pts else [] }

/-! Part 3: embedding of process_and_save from src/main.py (lines 11-171). The
run is modelled as the sequence of externally observable events it performs,
together with its outcome; the Python keyword-binding rule for the
build_new_affine call of lines 80-81 is modelled explicitly. -/

/-- Externally observable actions of process_and_save. -/
inductive Event where
  | loadNifti
  | buildAffine
  | resample
  | saveNifti (path : String)
  | removeScratch (path : String)
  | loadTrk
  | transformDensify
  | warnNoStreamlines
  | saveTrk (path : String)
  deriving DecidableEq

/-- Recognizer for streamline-output writes. -/
def Event.isSaveTrk : Event → Bool
  | .saveTrk _ => true
  | _ => false

/-- Recognizer for volume-resampling events. -/
def Event.isResample : Event → Bool
  | .resample => true
  | _ => false

/-- Parameter names of build_new_affine, transform.py line 3. -/
def build_new_affine_params : List String :=
  ["old_affine", "old_shape", "new_voxel_size", "new_shape", "patch_center_mm"]

/-- Keyword-argument names used at the call site main.py lines 80-81. -/
def build_call_kwargs : List String := ["patch_center_mm", "use_gpu"]

/-- Python keyword binding: a keyword argument whose name is not in the callee's
parameter list raises TypeError at the call. -/
def bindKwargs (params kwargs : List String) : Except String Unit :=
  match kwargs.find? (fun k => !(params.contains k)) with
  | some k => .error ("TypeError: got an unexpected keyword argument " ++ k)
  | none => .ok ()

/-- Lines 120-125 of main.py: save the resampled volume, then delete the temporary
memory-mapped scratch file if it exists. -/
def saveAndCleanup (tmpExists : Bool) (outName tmpPath : String) : List Event :=
  Event.saveNifti (outName ++ ".nii.gz") ::
    (if tmpExists then [Event.removeScratch tmpPath] else [])

/-- Lines 127-171 of main.py: load the tractogram, transform and densify the
streamlines, and either warn and return when none were processed or save the new
streamline file. The densified result is a parameter because
transform_and_densify_streamlines is implemented outside src/. -/
def streamline_stage {γ : Type} (densified_vox : List γ) (outName : String) : List Event :=
  Event.loadTrk :: Event.transformDensify ::
    (if densified_vox.length = 0 then [Event.warnNoStreamlines]
     else [Event.saveTrk (outName ++ ".trk")])

/-- Trace and outcome of one process_and_save run. -/
structure RunResult where
  trace : List Event
  outcome : Except String Unit

/-- Embedding of process_and_save (main.py lines 11-171): load the volume, then call
build_new_affine with keywords patch_center_mm and use_gpu; if that binding fails the
run stops with the raised TypeError, otherwise the volume is resampled, saved and
cleaned up and the streamline stage runs. -/
def process_and_save {γ : Type} (tmpExists : Bool) (densified_vox : List γ)
    (outName tmpPath : String) : RunResult :=
  match bindKwargs build_new_affine_params build_call_kwargs with
  | .error e => ⟨[Event.loadNifti], .error e⟩
  | .ok _ =>
    ⟨Event.loadNifti :: Event.buildAffine :: Event.resample ::
        (saveAndCleanup tmpExists outName tmpPath ++ streamline_stage densified_vox outName),
      .ok ()⟩

/-! Claim theorems for the batch driver and the run model. -/

/-- C2: every invocation of process_and_save stops with a TypeError raised at the
build_new_affine call, because the call site passes the keyword use_gpu which is not
in build_new_affine's parameter list; no resampling event ever occurs, so no
invocation completes successfully. -/
theorem process_and_save_always_errors {γ : Type} (tmpExists : Bool)
    (densified_vox : List γ) (outName tmpPath : String) :
    (process_and_save tmpExists densified_vox outName tmpPath).outcome
        = Except.error ("TypeError: got an unexpected keyword argument use_gpu")
    ∧ ∀ e ∈ (process_and_save tmpExists densified_vox outName tmpPath).trace,
        e.isResample = false := by
  have hb : bindKwargs build_new_affine_params build_call_kwargs
      = Except.error ("TypeError: got an unexpected keyword argument use_gpu") := by
    rfl
  refine ⟨?_, ?_⟩
  · simp [process_and_save, hb]
  · intro e he
    simp [process_and_save, hb] at he
    subst he
    rfl

/-- C3 counterexample: with configured step size 1 and voxel size 2 the driver hands
the densifier step size 2, which differs from step_size / voxel_size = 1 / 2. -/
theorem step_scaling_counterexample :
    (process_streamlines_with_method
        (fun (_ : ℕ) (_ : ℚ) => (Except.ok 0 : Except String ℕ)) [0] 1 2).calls
        = [(0, 2)]
    ∧ ((2 : ℚ) ≠ 1 / 2) := by
  refine ⟨?_, by norm_num⟩
  have hs : scaled_step_size 1 2 = 2 := by rw [scaled_step_size]; norm_num
  simp [process_streamlines_with_method, driverLoop, hs]

/-- C3 (amended): the step size the batch driver passes to the per-streamline
densifier on every call equals the configured step size multiplied by the target
voxel size, step_size * voxel_size, not divided by it. -/
theorem step_scaling_amended {α β : Type} (densify : α → ℚ → Except String β)
    (streamlines : List α) (step_size voxel_size : ℚ) :
    (process_streamlines_with_method densify streamlines step_size voxel_size).calls
        = (List.enumFrom 0 streamlines).map (fun p => (p.1, step_size * voxel_size))
    ∧ (process_streamlines_with_method densify streamlines step_size voxel_size).processed
        = streamlines.filterMap (fun s => (densify s (step_size * voxel_size)).toOption) := by
  refine ⟨driverLoop_calls densify step_size voxel_size 0 streamlines, ?_⟩
  have h := driverLoop_processed densify step_size voxel_size 0 streamlines
  simpa [scaled_step_size_eq_mul] using h

/-- C7: a failing streamline is skipped and its failure recorded with its index while
the batch continues: the processed list is exactly the successfully densified
streamlines in input order, the error log is exactly the failures with their indices,
and the output length never exceeds the input length. -/
theorem batch_skip_and_log {α β : Type} (densify : α → ℚ → Except String β)
    (streamlines : List α) (step_size voxel_size : ℚ) :
    (process_streamlines_with_method densify streamlines step_size voxel_size).processed
        = streamlines.filterMap
            (fun s => (densify s (scaled_step_size step_size voxel_size)).toOption)
    ∧ (process_streamlines_with_method densify streamlines step_size voxel_size).errors
        = (List.enumFrom 0 streamlines).filterMap
            (fun p => match densify p.2 (scaled_step_size step_size voxel_size) with
              | .error e => some (p.1, e)
              | .ok _ => none)
    ∧ (process_streamlines_with_method densify streamlines step_size voxel_size).processed.length
        ≤ streamlines.length := by
  refine ⟨driverLoop_processed densify step_size voxel_size 0 streamlines,
    driverLoop_errors densify step_size voxel_size 0 streamlines, ?_⟩
  rw [show (process_streamlines_with_method densify streamlines step_size voxel_size).processed
      = streamlines.filterMap
          (fun s => (densify s (scaled_step_size step_size voxel_size)).toOption)
    from driverLoop_processed densify step_size voxel_size 0 streamlines]
  exact List.length_filterMap_le _ _

/-- C8: when the streamline stage produced zero processed streamlines, the run emits
the distinct warning and writes no streamline output file. -/
theorem zero_streamlines_warns {γ : Type} (densified_vox : List γ) (outName : String)
    (h : densified_vox.length = 0) :
    Event.warnNoStreamlines ∈ streamline_stage densified_vox outName
    ∧ (streamline_stage densified_vox outName).all (fun e => !(e.isSaveTrk)) = true := by
  constructor
  · simp [streamline_stage, h]
  · simp [streamline_stage, h, Event.isSaveTrk]

theorem zero_streamlines_warns_witness :
    ([] : List ℕ).length = 0
    ∧ (Event.warnNoStreamlines ∈ streamline_stage ([] : List ℕ) ("resampled")
        ∧ (streamline_stage ([] : List ℕ) ("resampled")).all
            (fun e => !(e.isSaveTrk)) = true) :=
  ⟨rfl, zero_streamlines_warns ([] : List ℕ) ("resampled") rfl⟩

/-- C9: in the save-and-cleanup block, any deletion of the temporary memory-mapped
scratch file occurs strictly after the final resampled volume has been persisted:
every trace position holding the scratch removal is preceded by the volume save. -/
theorem scratch_removed_only_after_save (tmpExists : Bool) (outName tmpPath : String)
    (i : ℕ)
    (h : (saveAndCleanup tmpExists outName tmpPath).get? i
        = some (Event.removeScratch tmpPath)) :
    ∃ j < i, (saveAndCleanup tmpExists outName tmpPath).get? j
        = some (Event.saveNifti (outName ++ ".nii.gz")) := by
  cases tmpExists with
  | false =>
    rcases i with _ | i
    · simp [saveAndCleanup] at h
    · simp [saveAndCleanup] at h
  | true =>
    rcases i with _ | _ | i
    · simp [saveAndCleanup] at h
    · exact ⟨0, by omega, by simp [saveAndCleanup]⟩
    · simp [saveAndCleanup] at h

theorem scratch_removed_only_after_save_witness :
    (saveAndCleanup true ("resampled") ("tmp_chunk.npy")).get? 1
        = some (Event.removeScratch ("tmp_chunk.npy"))
    ∧ ∃ j < 1, (saveAndCleanup true ("resampled") ("tmp_chunk.npy")).get? j
        = some (Event.saveNifti ("resampled" ++ ".nii.gz")) := by
  have h : (saveAndCleanup true ("resampled") ("tmp_chunk.npy")).get? 1
      = some (Event.removeScratch ("tmp_chunk.npy")) := rfl
  exact ⟨h, scratch_removed_only_after_save true ("resampled") ("tmp_chunk.npy") 1 h⟩

/-- C10: the batch driver writes the tangent-debug environment flag as the string 1
exactly for streamline indices below 5 and as the string 0 otherwise, and the debug
flag does not interfere with the numerical output: for any streamline, step size and
method, densification with the flag on and off yields identical points. -/
theorem debug_flag_first_five_and_noninterference :
    (∀ (α β : Type) (densify : α → ℚ → Except String β) (streamlines : List α)
        (step_size voxel_size : ℚ),
      (process_streamlines_with_method densify streamlines step_size voxel_size).envLog
        = (List.enumFrom 0 streamlines).map
            (fun p => (p.1, if p.1 < 5 then ("1" : String) else ("0" : String))))
    ∧ (∀ (pts : List Vec3) (step : ℝ) (method : InterpMethod),
      (densify_streamline_subvoxel pts step method true).points
        = (densify_streamline_subvoxel pts step method false).points) := by
  constructor
  · intro α β densify streamlines step_size voxel_size
    have h := driverLoop_envLog densify step_size voxel_size 0 streamlines
    simpa [debugFlagValue] using h
  · intro pts step method
    rfl

end MRISynth
